import Mathlib

/-!
Shallow embedding of the mysql-operator controller
(pkg/controller/controller.go) of cyhw/mysql-operator.

The controller reacts to ADD / UPDATE / DELETE notifications for a
custom `MySQL` resource and issues create / delete / status-update
calls against the external store (the Kubernetes API).  We embed:

* the package-level configuration constants (controller.go lines 20-34),
* the Kubernetes object descriptions the handlers build (Secret,
  Service, StatefulSet with its pod template and volume-claim template),
* the three event handlers `Controller.add`, `Controller.update`,
  `Controller.delete` as functions from the event payload and a
  *failure schedule* (which external calls succeed) to the list of
  calls the external store observes, in order, together with the last
  successfully persisted status message.

Fallible external calls are modelled by the schedule: each call site in
the source has one boolean saying whether that call succeeds.  Calls
whose error the source discards (`_ = ...`) influence nothing, which the
embedding reflects by the trace not depending on those booleans.
-/

namespace MySQLOperator

/-! ### Package-level constants (controller.go lines 20-34) -/

def matchLabelKey : String := "app"

def matchLabelVal : String := "mysql"

def serviceName : String := "mysql"

-- source: replicas = int32(1)
def replicas : Int := 1

-- source: terminationGracePeriodSeconds = int64(10)
def terminationGracePeriodSeconds : Int := 10

def containerName : String := "mysql"

def imagePrefix : String := "arm64v8/mysql:"

def volumeMountName : String := "mysql-store"

-- the source spells the variable "volumeMoutPath"
def volumeMoutPath : String := "/var/lib/mysql"

def envName : String := "MYSQL_ROOT_PASSWORD"

def secretName : String := "mysql-password"

def passwd : String := "bytedance"

-- source: port = int32(3306)
def port : Int := 3306

/-! ### The custom resource (pkg/apis/mysql/v1alpha1/types.go) -/

/-- MySQLSpec is the spec of Mysql: the single field `version`. -/
structure MySQLSpec where
  version : String
deriving DecidableEq, Repr

/-- MySQLStatus is the status of Mysql: the single field `message`. -/
structure MySQLStatus where
  message : String
deriving DecidableEq, Repr

/-- The MySQL custom resource: object meta (namespace, name) plus spec and
status.  The Go field `Namespace` is embedded via ObjectMeta; `namespace` is a
Lean keyword, so the field is called `ns`. -/
structure MySQL where
  ns : String
  name : String
  spec : MySQLSpec
  status : MySQLStatus
deriving DecidableEq, Repr

/-! ### Kubernetes object descriptions built by the ADD handler -/

/-- The parts of metav1.ObjectMeta the controller sets. -/
structure ObjectMeta where
  name : String := ""
  ns : String := ""
  labels : List (String × String) := []
deriving DecidableEq, Repr

/-- corev1.Secret: metadata, `Type`, and `StringData`. -/
structure Secret where
  metadata : ObjectMeta
  type : String
  stringData : List (String × String)
deriving DecidableEq, Repr

/-- corev1.ServicePort: the controller only sets `Port`. -/
structure ServicePort where
  port : Int
deriving DecidableEq, Repr

/-- corev1.ServiceSpec: ports, cluster IP, selector. -/
structure ServiceSpec where
  ports : List ServicePort
  clusterIP : String
  selector : List (String × String)
deriving DecidableEq, Repr

/-- corev1.Service: metadata and spec. -/
structure Service where
  metadata : ObjectMeta
  spec : ServiceSpec
deriving DecidableEq, Repr

/-- resource.Quantity from k8s.io/apimachinery/pkg/api/resource.  In Go the
struct is

  type Quantity struct \x7b i int64Amount; d infDecAmount; s string; Format \x7d

The numeric amount `i`/`d` and the string cache `s` are unexported and default
to zero / empty; the embedded field `Format` is the only field a composite
literal outside the package can set.  `value` stands for the numeric amount,
`s` for the string cache, `format` for the embedded `Format` field. -/
structure Quantity where
  value : Int := 0
  s : String := ""
  format : String := ""
deriving DecidableEq, Repr

/-- corev1.ResourceRequirements: requests and limits keyed by resource name. -/
structure ResourceRequirements where
  requests : List (String × Quantity) := []
  limits : List (String × Quantity) := []
deriving DecidableEq, Repr

/-- corev1.PersistentVolumeClaimSpec: access modes and resources. -/
structure PersistentVolumeClaimSpec where
  accessModes : List String
  resources : ResourceRequirements
deriving DecidableEq, Repr

/-- corev1.PersistentVolumeClaim: metadata and spec. -/
structure PersistentVolumeClaim where
  metadata : ObjectMeta
  spec : PersistentVolumeClaimSpec
deriving DecidableEq, Repr

/-- corev1.ContainerPort: the controller only sets `ContainerPort`. -/
structure ContainerPort where
  containerPort : Int
deriving DecidableEq, Repr

/-- corev1.VolumeMount: name and mount path. -/
structure VolumeMount where
  name : String
  mountPath : String
deriving DecidableEq, Repr

/-- corev1.SecretKeySelector: the referenced secret name and key. -/
structure SecretKeySelector where
  name : String
  key : String
deriving DecidableEq, Repr

/-- corev1.EnvVar with a `ValueFrom.SecretKeyRef` source (the only form the
controller uses). -/
structure EnvVar where
  name : String
  valueFromSecretKeyRef : SecretKeySelector
deriving DecidableEq, Repr

/-- corev1.Container: the fields the controller sets. -/
structure Container where
  name : String
  image : String
  ports : List ContainerPort
  volumeMounts : List VolumeMount
  env : List EnvVar
deriving DecidableEq, Repr

/-- corev1.PodSpec: termination grace period and containers. -/
structure PodSpec where
  terminationGracePeriodSeconds : Option Int
  containers : List Container
deriving DecidableEq, Repr

/-- corev1.PodTemplateSpec: metadata labels and pod spec. -/
structure PodTemplateSpec where
  labels : List (String × String)
  spec : PodSpec
deriving DecidableEq, Repr

/-- appsv1.StatefulSetSpec: the fields the controller sets. -/
structure StatefulSetSpec where
  selectorMatchLabels : List (String × String)
  serviceName : String
  replicas : Option Int
  template : PodTemplateSpec
  volumeClaimTemplates : List PersistentVolumeClaim
deriving DecidableEq, Repr

/-- appsv1.StatefulSet: metadata and spec. -/
structure StatefulSet where
  metadata : ObjectMeta
  spec : StatefulSetSpec
deriving DecidableEq, Repr

/-! ### Descriptions built in `Controller.add` -/

/-- The secret literal of controller.go lines 93-101. -/
def buildSecret : Secret :=
  { metadata := { name := secretName }
    type := "Opaque"
    stringData := [(envName, passwd)] }

/-- The service literal of controller.go lines 114-132. -/
def buildService : Service :=
  { metadata :=
      { name := serviceName
        labels := [(matchLabelKey, matchLabelVal)] }
    spec :=
      { ports := [{ port := port }]
        clusterIP := "None"
        selector := [(matchLabelKey, matchLabelVal)] } }

/-- The pod template literal of controller.go lines 146-185; `ret` is the
deep-copied CR, used for `Image: imagePrefix + ret.Spec.Version`. -/
def buildPodTemplate (ret : MySQL) : PodTemplateSpec :=
  { labels := [(matchLabelKey, matchLabelVal)]
    spec :=
      { terminationGracePeriodSeconds := some terminationGracePeriodSeconds
        containers :=
          [{ name := containerName
             image := imagePrefix ++ ret.spec.version
             ports := [{ containerPort := port }]
             volumeMounts := [{ name := volumeMountName, mountPath := volumeMoutPath }]
             env := [{ name := envName
                       valueFromSecretKeyRef := { name := secretName, key := envName } }] }] } }

/-- The volume-claim template literal of controller.go lines 187-210.  The Go
composite literals `\x7bFormat: "1Gi"\x7d` and `\x7bFormat: "2Gi"\x7d` set only
the embedded `Format` field of resource.Quantity; the numeric amount stays at
its zero value. -/
def vcTemplate : List PersistentVolumeClaim :=
  [{ metadata := { name := volumeMountName }
     spec :=
       { accessModes := ["ReadWriteOnce"]
         resources :=
           { requests := [("storage", { format := "1Gi" })]
             limits := [("storage", { format := "2Gi" })] } } }]

/-- The stateful-set literal of controller.go lines 212-228. -/
def buildStatefulSet (ret : MySQL) : StatefulSet :=
  { metadata := { name := ret.name ++ "-deployment", ns := ret.ns }
    spec :=
      { selectorMatchLabels := [(matchLabelKey, matchLabelVal)]
        serviceName := serviceName
        replicas := some replicas
        template := buildPodTemplate ret
        volumeClaimTemplates := vcTemplate } }

/-! ### Calls observed by the external store -/

/-- One call issued against the external store, in the order the handler
issues them.  `updateStatus` carries the persisted status message. -/
inductive Call where
  | updateStatus (ns name message : String)
  | createSecret (ns : String) (s : Secret)
  | createService (ns : String) (s : Service)
  | createStatefulSet (ns : String) (s : StatefulSet)
  | deleteCR (ns name : String)
  | deleteSecret (ns name : String)
  | deleteService (ns name : String)
  | deleteStatefulSet (ns name : String)
deriving DecidableEq, Repr

def Call.isCreate : Call → Bool
  | .createSecret _ _ => true
  | .createService _ _ => true
  | .createStatefulSet _ _ => true
  | _ => false

def Call.isDelete : Call → Bool
  | .deleteCR _ _ => true
  | .deleteSecret _ _ => true
  | .deleteService _ _ => true
  | .deleteStatefulSet _ _ => true
  | _ => false

def Call.isUpdateStatus : Call → Bool
  | .updateStatus _ _ _ => true
  | _ => false

def Call.isCreateStatefulSet : Call → Bool
  | .createStatefulSet _ _ => true
  | _ => false

def Call.isDeleteSecret : Call → Bool
  | .deleteSecret _ _ => true
  | _ => false

def Call.isDeleteService : Call → Bool
  | .deleteService _ _ => true
  | _ => false

/-- The secrets carried by the createSecret calls of a trace, in order. -/
def createdSecrets (t : List Call) : List Secret :=
  t.filterMap fun c =>
    match c with
    | Call.createSecret _ s => some s
    | _ => none

/-- The services carried by the createService calls of a trace, in order. -/
def createdServices (t : List Call) : List Service :=
  t.filterMap fun c =>
    match c with
    | Call.createService _ s => some s
    | _ => none

/-- The stateful sets carried by the createStatefulSet calls of a trace. -/
def createdStatefulSets (t : List Call) : List StatefulSet :=
  t.filterMap fun c =>
    match c with
    | Call.createStatefulSet _ s => some s
    | _ => none

/-- Position of the first call satisfying `p`, if any. -/
def firstIdx (p : Call → Bool) (t : List Call) : Option Nat :=
  t.findIdx? p

/-- True iff some deleteService call occurs strictly before every deleteSecret
call present - the order the spec asserts for stateful-workload-failure
compensation ("service before secret"). -/
def serviceDelBeforeSecretDel (t : List Call) : Bool :=
  match firstIdx Call.isDeleteService t, firstIdx Call.isDeleteSecret t with
  | some i, some j => decide (i < j)
  | _, _ => false

/-! ### The failure schedule and the ADD handler -/

/-- Which external calls of one ADD handler run succeed.  One boolean per
fallible call site of `Controller.add`, in source order:

* `updateStatusAdd` - the initial "Received In ADD" persist (line 86);
* `createSecret` - secret creation (line 102);
* `updateStatusSecretFail` - the "Failed" persist in the secret-failure
  branch (line 105);
* `createService` - service creation (line 133);
* `updateStatusServiceFail` - the "Failed" persist in the service-failure
  branch (line 136);
* `createStatefulSet` - stateful-set creation (line 229);
* `updateStatusStsFail` - the "Failed" persist in the stateful-set-failure
  branch (line 232).

The compensating delete calls (lines 141, 237, 238) discard their error
(`_ = ...`), so they need no schedule entry. -/
structure Sched where
  updateStatusAdd : Bool
  createSecret : Bool
  updateStatusSecretFail : Bool
  createService : Bool
  updateStatusServiceFail : Bool
  createStatefulSet : Bool
  updateStatusStsFail : Bool
deriving DecidableEq, Repr

/-- Result of one ADD handler run: the trace of calls the external store
observes, and the CR status message last *successfully* persisted (none if no
status persist succeeded). -/
structure AddResult where
  trace : List Call
  persisted : Option String
deriving DecidableEq, Repr

/-- The ADD handler (controller.go lines 74-240).  The argument is the event
payload after the type assertion: `none` models an object that is not a
`*MySQL` (the handler logs and returns, line 78-81).  Each fallible call
appends itself to the trace and then branches on its schedule boolean,
following the source's control flow:

1. deep-copy the CR, set status "Received In ADD", persist; on persist
   failure return (lines 84-90);
2. create the secret; on failure persist "Failed" and return - whether or not
   that persist succeeds (lines 102-112);
3. create the service; on failure persist "Failed"; if that persist fails
   return, otherwise delete the secret and return (lines 133-144);
4. create the stateful set; on failure persist "Failed"; if that persist
   fails return, otherwise delete the secret then the service (lines
   229-239). -/
def Controller.add (sched : Sched) (obj : Option MySQL) : AddResult :=
  match obj with
  | none => { trace := [], persisted := none }
  | some mysqlObj =>
    let ret := mysqlObj
    let t := [Call.updateStatus ret.ns ret.name "Received In ADD"]
    if !sched.updateStatusAdd then { trace := t, persisted := none } else
    let t := t ++ [Call.createSecret ret.ns buildSecret]
    if !sched.createSecret then
      let t := t ++ [Call.updateStatus ret.ns ret.name "Failed"]
      if !sched.updateStatusSecretFail then
        { trace := t, persisted := some "Received In ADD" }
      else
        { trace := t, persisted := some "Failed" }
    else
    let t := t ++ [Call.createService ret.ns buildService]
    if !sched.createService then
      let t := t ++ [Call.updateStatus ret.ns ret.name "Failed"]
      if !sched.updateStatusServiceFail then
        { trace := t, persisted := some "Received In ADD" }
      else
        { trace := t ++ [Call.deleteSecret ret.ns secretName]
          persisted := some "Failed" }
    else
    let t := t ++ [Call.createStatefulSet ret.ns (buildStatefulSet ret)]
    if !sched.createStatefulSet then
      let t := t ++ [Call.updateStatus ret.ns ret.name "Failed"]
      if !sched.updateStatusStsFail then
        { trace := t, persisted := some "Received In ADD" }
      else
        { trace := t ++ [Call.deleteSecret ret.ns secretName,
                         Call.deleteService ret.ns serviceName]
          persisted := some "Failed" }
    else
      { trace := t, persisted := some "Received In ADD" }

/-! ### The UPDATE and DELETE handlers -/

/-- The UPDATE handler (controller.go lines 242-258): type-checks both
snapshots and logs; it issues no external calls, so the trace is always
empty. -/
def Controller.update (old new : Option MySQL) : List Call :=
  match old with
  | none => []
  | some _ =>
    match new with
    | none => []
    | some _ => []

/-- Success schedule for the four delete calls of the DELETE handler.  The
source discards every error (`_ = ...`, lines 270-273), so the trace cannot
depend on these booleans - which the teardown-completeness theorem states. -/
structure DelSched where
  deleteCR : Bool
  deleteSecret : Bool
  deleteService : Bool
  deleteStatefulSet : Bool
deriving DecidableEq, Repr

/-- The DELETE handler (controller.go lines 260-274): after the type
assertion, unconditionally delete the CR, the secret, the service, and the
stateful set named `name + "-deployment"`, in that order, discarding every
error. -/
def Controller.delete (sched : DelSched) (obj : Option MySQL) : List Call :=
  match obj with
  | none => []
  | some mysqlObj =>
    [Call.deleteCR mysqlObj.ns mysqlObj.name,
     Call.deleteSecret mysqlObj.ns secretName,
     Call.deleteService mysqlObj.ns serviceName,
     Call.deleteStatefulSet mysqlObj.ns (mysqlObj.name ++ "-deployment")]

/-! ### Concrete inputs used in the scenario theorems -/

/-- The end-to-end scenario CR of the spec: namespace "default", name "db1",
version "8.0". -/
def crDb1 : MySQL :=
  { ns := "default", name := "db1"
    spec := { version := "8.0" }, status := { message := "" } }

/-- Schedule on which every external call succeeds. -/
def schedAllOk : Sched :=
  { updateStatusAdd := true, createSecret := true, updateStatusSecretFail := true
    createService := true, updateStatusServiceFail := true
    createStatefulSet := true, updateStatusStsFail := true }

/-- Schedule on which only the stateful-set create fails. -/
def schedStsFail : Sched :=
  { schedAllOk with createStatefulSet := false }

/-- Schedule on which the stateful-set create fails and the subsequent
"Failed" status persist also fails. -/
def schedStsFailPersistFail : Sched :=
  { schedAllOk with createStatefulSet := false, updateStatusStsFail := false }

/-- Schedule on which only the service create fails. -/
def schedSvcFail : Sched :=
  { schedAllOk with createService := false }

/-- Schedule on which the service create fails and the subsequent "Failed"
status persist also fails. -/
def schedSvcFailPersistFail : Sched :=
  { schedAllOk with createService := false, updateStatusServiceFail := false }

/-- Schedule on which the initial "Received In ADD" persist fails. -/
def schedInitFail : Sched :=
  { schedAllOk with updateStatusAdd := false }

/-! ### Theorems for the claims -/

/-- Claim C3: for every ADD that completes with no failure, the external
store observes exactly three create calls - Credential Store, then Network
Service, then Stateful Workload, in that order - and zero delete calls; the
trace carries exactly one status-update call, the initial "Received In ADD",
so no explicit success status is written and the last successfully persisted
status is "Received In ADD". -/
theorem add_success_ordered_creation (cr : MySQL) (sched : Sched)
    (h1 : sched.updateStatusAdd = true) (h2 : sched.createSecret = true)
    (h3 : sched.createService = true) (h4 : sched.createStatefulSet = true) :
    (Controller.add sched (some cr)).trace =
      [Call.updateStatus cr.ns cr.name "Received In ADD",
       Call.createSecret cr.ns buildSecret,
       Call.createService cr.ns buildService,
       Call.createStatefulSet cr.ns (buildStatefulSet cr)] ∧
    (Controller.add sched (some cr)).trace.countP Call.isDelete = 0 ∧
    (Controller.add sched (some cr)).persisted = some "Received In ADD" := by
  obtain ⟨a, b, c, d, e, f, g⟩ := sched
  cases a <;> cases b <;> cases d <;> cases f <;>
    first
      | exact Bool.noConfusion h1
      | exact Bool.noConfusion h2
      | exact Bool.noConfusion h3
      | exact Bool.noConfusion h4
      | exact ⟨rfl, rfl, rfl⟩

/-- Claim C3, witness: the success-path theorem instantiated at the db1 CR
and the all-successful schedule. -/
theorem add_success_ordered_creation_witness :
    schedAllOk.updateStatusAdd = true ∧ schedAllOk.createSecret = true ∧
    schedAllOk.createService = true ∧ schedAllOk.createStatefulSet = true ∧
    ((Controller.add schedAllOk (some crDb1)).trace =
      [Call.updateStatus crDb1.ns crDb1.name "Received In ADD",
       Call.createSecret crDb1.ns buildSecret,
       Call.createService crDb1.ns buildService,
       Call.createStatefulSet crDb1.ns (buildStatefulSet crDb1)] ∧
     (Controller.add schedAllOk (some crDb1)).trace.countP Call.isDelete = 0 ∧
     (Controller.add schedAllOk (some crDb1)).persisted = some "Received In ADD") :=
  ⟨rfl, rfl, rfl, rfl, add_success_ordered_creation crDb1 schedAllOk rfl rfl rfl rfl⟩

/-- Claim C1, counterexample: on the run where only the Stateful Workload
create fails (and the "Failed" persist succeeds), the compensation issues the
Credential Store (secret) delete FIRST and the Network Service delete second
- not service before secret as the claim states. -/
theorem add_sts_failure_delete_order_counterexample :
    (Controller.add schedStsFail (some crDb1)).trace.filter Call.isDelete =
      [Call.deleteSecret "default" "mysql-password",
       Call.deleteService "default" "mysql"] ∧
    serviceDelBeforeSecretDel (Controller.add schedStsFail (some crDb1)).trace = false :=
  ⟨rfl, rfl⟩

/-- Claim C1, amended: if the Stateful Workload create fails during ADD and
the "Failed" status persist succeeds, the handler issues compensating deletes
for both the Credential Store and the Network Service, with the Credential
Store delete BEFORE the Network Service delete (secret before service). -/
theorem add_sts_failure_compensation_order (cr : MySQL) (sched : Sched)
    (h1 : sched.updateStatusAdd = true) (h2 : sched.createSecret = true)
    (h3 : sched.createService = true) (h4 : sched.createStatefulSet = false)
    (h5 : sched.updateStatusStsFail = true) :
    (Controller.add sched (some cr)).trace.filter Call.isDelete =
      [Call.deleteSecret cr.ns secretName,
       Call.deleteService cr.ns serviceName] := by
  obtain ⟨a, b, c, d, e, f, g⟩ := sched
  cases a <;> cases b <;> cases d <;> cases f <;> cases g <;>
    first
      | exact Bool.noConfusion h1
      | exact Bool.noConfusion h2
      | exact Bool.noConfusion h3
      | exact Bool.noConfusion h4
      | exact Bool.noConfusion h5
      | exact rfl

/-- Claim C1, amended, witness: instantiated at the db1 CR and the schedule
where only the stateful-set create fails. -/
theorem add_sts_failure_compensation_order_witness :
    schedStsFail.updateStatusAdd = true ∧ schedStsFail.createSecret = true ∧
    schedStsFail.createService = true ∧ schedStsFail.createStatefulSet = false ∧
    schedStsFail.updateStatusStsFail = true ∧
    (Controller.add schedStsFail (some crDb1)).trace.filter Call.isDelete =
      [Call.deleteSecret crDb1.ns secretName,
       Call.deleteService crDb1.ns serviceName] :=
  ⟨rfl, rfl, rfl, rfl, rfl,
   add_sts_failure_compensation_order crDb1 schedStsFail rfl rfl rfl rfl rfl⟩

/-- Claim C2, counterexample: on the run where the Stateful Workload create
fails after the secret and service were created, and the "Failed" status
persist then fails, the handler issues NO delete calls at all - the failed
persist blocks the compensating rollback, contrary to the claim that the
deletes are issued whether or not the persist succeeded. -/
theorem add_persist_failure_blocks_rollback_counterexample :
    (Controller.add schedStsFailPersistFail (some crDb1)).trace.countP
        Call.isCreateStatefulSet = 1 ∧
    (Controller.add schedStsFailPersistFail (some crDb1)).trace.filter
        Call.isDelete = [] :=
  ⟨rfl, rfl⟩

/-- Claim C2, amended: for every dependent-resource create failure occurring
after at least one resource was created - the Network Service create failing
after the Credential Store was created, or the Stateful Workload create
failing after both - the compensating deletes are issued exactly when the
best-effort "Failed" status persist succeeds; if that persist fails, the
handler returns immediately and no compensating delete is issued. -/
theorem add_rollback_iff_persist_succeeds (cr : MySQL) (sched : Sched)
    (h1 : sched.updateStatusAdd = true) (h2 : sched.createSecret = true) :
    (sched.createService = false →
      (sched.updateStatusServiceFail = true →
        (Controller.add sched (some cr)).trace.filter Call.isDelete =
          [Call.deleteSecret cr.ns secretName]) ∧
      (sched.updateStatusServiceFail = false →
        (Controller.add sched (some cr)).trace.filter Call.isDelete = [])) ∧
    (sched.createService = true → sched.createStatefulSet = false →
      (sched.updateStatusStsFail = true →
        (Controller.add sched (some cr)).trace.filter Call.isDelete =
          [Call.deleteSecret cr.ns secretName,
           Call.deleteService cr.ns serviceName]) ∧
      (sched.updateStatusStsFail = false →
        (Controller.add sched (some cr)).trace.filter Call.isDelete = [])) := by
  obtain ⟨a, b, c, d, e, f, g⟩ := sched
  cases a <;> cases b <;> cases d <;> cases e <;> cases f <;> cases g <;>
    first
      | exact Bool.noConfusion h1
      | exact Bool.noConfusion h2
      | refine ⟨?_, ?_⟩ <;>
          first
            | exact fun h => Bool.noConfusion h
            | exact fun _ => ⟨fun _ => rfl, fun h => Bool.noConfusion h⟩
            | exact fun _ => ⟨fun h => Bool.noConfusion h, fun _ => rfl⟩
            | exact fun _ h => Bool.noConfusion h
            | exact fun _ _ => ⟨fun _ => rfl, fun h => Bool.noConfusion h⟩
            | exact fun _ _ => ⟨fun h => Bool.noConfusion h, fun _ => rfl⟩

/-- Claim C2, amended, witness: instantiated at the db1 CR and the schedule
where the stateful-set create and the subsequent persist both fail. -/
theorem add_rollback_iff_persist_succeeds_witness :
    schedStsFailPersistFail.updateStatusAdd = true ∧
    schedStsFailPersistFail.createSecret = true ∧
    ((schedStsFailPersistFail.createService = false →
      (schedStsFailPersistFail.updateStatusServiceFail = true →
        (Controller.add schedStsFailPersistFail (some crDb1)).trace.filter Call.isDelete =
          [Call.deleteSecret crDb1.ns secretName]) ∧
      (schedStsFailPersistFail.updateStatusServiceFail = false →
        (Controller.add schedStsFailPersistFail (some crDb1)).trace.filter Call.isDelete = [])) ∧
     (schedStsFailPersistFail.createService = true →
      schedStsFailPersistFail.createStatefulSet = false →
      (schedStsFailPersistFail.updateStatusStsFail = true →
        (Controller.add schedStsFailPersistFail (some crDb1)).trace.filter Call.isDelete =
          [Call.deleteSecret crDb1.ns secretName,
           Call.deleteService crDb1.ns serviceName]) ∧
      (schedStsFailPersistFail.updateStatusStsFail = false →
        (Controller.add schedStsFailPersistFail (some crDb1)).trace.filter Call.isDelete = []))) :=
  ⟨rfl, rfl,
   add_rollback_iff_persist_succeeds crDb1 schedStsFailPersistFail rfl rfl⟩

/-- Claim C4, counterexample: on the run where the Network Service create
fails and the subsequent "Failed" status persist also fails, the external
store observes ZERO delete calls, not exactly one as the claim states, and
the persisted status is not "Failed". -/
theorem add_service_failure_counterexample :
    ¬ ((Controller.add schedSvcFailPersistFail (some crDb1)).trace.countP
        Call.isDelete = 1) ∧
    (Controller.add schedSvcFailPersistFail (some crDb1)).trace.countP
        Call.isDelete = 0 ∧
    ¬ ((Controller.add schedSvcFailPersistFail (some crDb1)).persisted =
        some "Failed") := by
  refine ⟨?_, rfl, ?_⟩ <;> decide

/-- Claim C4, amended: if the Network Service create fails during ADD and
the subsequent "Failed" status persist succeeds, the external store observes
exactly one delete call, for the Credential Store, zero Stateful Workload
create calls, and the persisted status is "Failed". -/
theorem add_service_failure_compensation (cr : MySQL) (sched : Sched)
    (h1 : sched.updateStatusAdd = true) (h2 : sched.createSecret = true)
    (h3 : sched.createService = false) (h4 : sched.updateStatusServiceFail = true) :
    (Controller.add sched (some cr)).trace.filter Call.isDelete =
      [Call.deleteSecret cr.ns secretName] ∧
    (Controller.add sched (some cr)).trace.countP Call.isCreateStatefulSet = 0 ∧
    (Controller.add sched (some cr)).persisted = some "Failed" := by
  obtain ⟨a, b, c, d, e, f, g⟩ := sched
  cases a <;> cases b <;> cases d <;> cases e <;>
    first
      | exact Bool.noConfusion h1
      | exact Bool.noConfusion h2
      | exact Bool.noConfusion h3
      | exact Bool.noConfusion h4
      | exact ⟨rfl, rfl, rfl⟩

/-- Claim C4, amended, witness: instantiated at the db1 CR and the schedule
where only the service create fails. -/
theorem add_service_failure_compensation_witness :
    schedSvcFail.updateStatusAdd = true ∧ schedSvcFail.createSecret = true ∧
    schedSvcFail.createService = false ∧ schedSvcFail.updateStatusServiceFail = true ∧
    ((Controller.add schedSvcFail (some crDb1)).trace.filter Call.isDelete =
      [Call.deleteSecret crDb1.ns secretName] ∧
     (Controller.add schedSvcFail (some crDb1)).trace.countP Call.isCreateStatefulSet = 0 ∧
     (Controller.add schedSvcFail (some crDb1)).persisted = some "Failed") :=
  ⟨rfl, rfl, rfl, rfl,
   add_service_failure_compensation crDb1 schedSvcFail rfl rfl rfl rfl⟩

/-- Claim C5: on a DELETE notification with a well-typed CR the handler
attempts all four deletes - CR, then Credential Store, then Network Service,
then Stateful Workload named `name + "-deployment"` - in that order, for
EVERY success/failure schedule of the four delete calls (so failures neither
suppress nor retry nor reorder the others), and it returns normally. -/
theorem delete_teardown_completeness (sched : DelSched) (m : MySQL) :
    Controller.delete sched (some m) =
      [Call.deleteCR m.ns m.name,
       Call.deleteSecret m.ns secretName,
       Call.deleteService m.ns serviceName,
       Call.deleteStatefulSet m.ns (m.name ++ "-deployment")] := rfl

/-- Claim C6: if the initial "Received In ADD" persist fails, the handler
aborts with only that one status-update attempt in the trace - zero create
calls, zero delete calls, and no status ever successfully persisted. -/
theorem add_initial_persist_failure_aborts (cr : MySQL) (sched : Sched)
    (h : sched.updateStatusAdd = false) :
    (Controller.add sched (some cr)).trace =
      [Call.updateStatus cr.ns cr.name "Received In ADD"] ∧
    (Controller.add sched (some cr)).trace.countP Call.isCreate = 0 ∧
    (Controller.add sched (some cr)).trace.countP Call.isDelete = 0 ∧
    (Controller.add sched (some cr)).persisted = none := by
  obtain ⟨a, b, c, d, e, f, g⟩ := sched
  cases a
  · exact ⟨rfl, rfl, rfl, rfl⟩
  · exact Bool.noConfusion h

/-- Claim C6, witness: instantiated at the db1 CR and the schedule on which
the initial persist fails. -/
theorem add_initial_persist_failure_aborts_witness :
    schedInitFail.updateStatusAdd = false ∧
    ((Controller.add schedInitFail (some crDb1)).trace =
      [Call.updateStatus crDb1.ns crDb1.name "Received In ADD"] ∧
     (Controller.add schedInitFail (some crDb1)).trace.countP Call.isCreate = 0 ∧
     (Controller.add schedInitFail (some crDb1)).trace.countP Call.isDelete = 0 ∧
     (Controller.add schedInitFail (some crDb1)).persisted = none) :=
  ⟨rfl, add_initial_persist_failure_aborts crDb1 schedInitFail rfl⟩

/-- Claim C7: the end-to-end scenario for the CR \x7bns "default", name "db1",
version "8.0"\x7d on a fully successful ADD: status persisted "Received In
ADD" (and it is the first call of the trace), a secret named "mysql-password"
created, a service named "mysql" created with port 3306 and selector
\x7bapp: mysql\x7d, and a stateful set named "db1-deployment" created with 1
replica and container image "arm64v8/mysql:8.0". -/
theorem add_end_to_end_db1 :
    (Controller.add schedAllOk (some crDb1)).persisted = some "Received In ADD" ∧
    (Controller.add schedAllOk (some crDb1)).trace.filter Call.isUpdateStatus =
      [Call.updateStatus "default" "db1" "Received In ADD"] ∧
    createdSecrets (Controller.add schedAllOk (some crDb1)).trace =
      [{ metadata := { name := "mysql-password" }
         type := "Opaque"
         stringData := [("MYSQL_ROOT_PASSWORD", "bytedance")] }] ∧
    createdServices (Controller.add schedAllOk (some crDb1)).trace =
      [{ metadata := { name := "mysql", labels := [("app", "mysql")] }
         spec := { ports := [{ port := 3306 }]
                   clusterIP := "None"
                   selector := [("app", "mysql")] } }] ∧
    (createdStatefulSets (Controller.add schedAllOk (some crDb1)).trace).map
        (fun s => (s.metadata.name, s.spec.replicas)) = [("db1-deployment", some 1)] ∧
    (createdStatefulSets (Controller.add schedAllOk (some crDb1)).trace).map
        (fun s => s.spec.template.spec.containers.map Container.image) =
      [["arm64v8/mysql:8.0"]] ∧
    (Controller.add schedAllOk (some crDb1)).trace.countP Call.isDelete = 0 :=
  ⟨rfl, rfl, rfl, rfl, rfl, rfl, rfl⟩

/-- Claim C8: what the code actually builds at the failing input (the db1
CR).  The volume-claim template mounts at /var/lib/mysql, injects
MYSQL_ROOT_PASSWORD from the secret, and sets a 10-second termination grace
period, as the claim says - but the storage request and limit quantities both
have numeric value 0: the Go composite literals set only the embedded
`Format` field of resource.Quantity to "1Gi" / "2Gi", never the amount, so no
1Gi request or 2Gi limit is actually encoded. -/
theorem add_sts_storage_quantities_are_zero :
    ((buildStatefulSet crDb1).spec.volumeClaimTemplates.map
        fun pvc => pvc.spec.resources.requests) =
      [[("storage", { value := 0, s := "", format := "1Gi" })]] ∧
    ((buildStatefulSet crDb1).spec.volumeClaimTemplates.map
        fun pvc => pvc.spec.resources.limits) =
      [[("storage", { value := 0, s := "", format := "2Gi" })]] ∧
    ((buildStatefulSet crDb1).spec.template.spec.containers.map
        fun c => c.volumeMounts) =
      [[{ name := "mysql-store", mountPath := "/var/lib/mysql" }]] ∧
    ((buildStatefulSet crDb1).spec.template.spec.containers.map fun c => c.env) =
      [[{ name := "MYSQL_ROOT_PASSWORD"
          valueFromSecretKeyRef := { name := "mysql-password"
                                     key := "MYSQL_ROOT_PASSWORD" } }]] ∧
    (buildStatefulSet crDb1).spec.template.spec.terminationGracePeriodSeconds =
      some 10 :=
  ⟨rfl, rfl, rfl, rfl, rfl⟩

/-- Claim C9: the UPDATE handler issues no external calls at all - no
create, no delete, no status update - whatever the old and new snapshots are
(including ill-typed ones). -/
theorem update_is_noop (old new : Option MySQL) :
    Controller.update old new = [] := by
  cases old <;> cases new <;> rfl

/-- Claim C10: whenever the ADD handler reaches the secret-creation call
(the initial persist succeeded), the secret it sends is one fixed literal -
an Opaque secret named "mysql-password" whose only entry maps
MYSQL_ROOT_PASSWORD to the hard-coded password "bytedance" - for EVERY CR and
EVERY schedule, so nothing in it depends on the CR's namespace, name or spec,
and any two runs produce identical secret data. -/
theorem add_secret_constant (cr : MySQL) (sched : Sched)
    (h : sched.updateStatusAdd = true) :
    createdSecrets (Controller.add sched (some cr)).trace =
      [{ metadata := { name := "mysql-password", ns := "", labels := [] }
         type := "Opaque"
         stringData := [("MYSQL_ROOT_PASSWORD", "bytedance")] }] := by
  obtain ⟨a, b, c, d, e, f, g⟩ := sched
  cases a
  · exact Bool.noConfusion h
  · cases b <;> cases c <;> cases d <;> cases e <;> cases f <;> cases g <;> rfl

/-- Claim C10, witness: instantiated at the db1 CR and the all-successful
schedule. -/
theorem add_secret_constant_witness :
    schedAllOk.updateStatusAdd = true ∧
    createdSecrets (Controller.add schedAllOk (some crDb1)).trace =
      [{ metadata := { name := "mysql-password", ns := "", labels := [] }
         type := "Opaque"
         stringData := [("MYSQL_ROOT_PASSWORD", "bytedance")] }] :=
  ⟨rfl, add_secret_constant crDb1 schedAllOk rfl⟩

end MySQLOperator
